import Mathlib

/-!
Shallow embedding of `src/chat.ts` (smol-js): the `SmolAI` class with its
function registry (`addFunction`, `deregisterFunction`, `getFunction`,
`listFunctions`) and its `chat` retry loop.  The external collaborators the
class calls — the OpenAI SDK (`aisdk.createChatCompletion`), the JavaScript
builtins `JSON.parse`, `JSON.stringify` and `Math.random`, and the
`zodToJsonSchema` converter — are modeled as explicit data and function
parameters.  The `log` calls are purely observational and are not modeled.
-/

/-!
JSON values: the shape of `JSONSchema7Type` documents, of parsed
argument values, and of function results.  Arrays and objects are encoded
with the mutual types `JsonList` and `JsonFields` (an object is an ordered
field list, as in JavaScript).  JavaScript numbers are modeled as integers;
no property considered here depends on floating-point behavior.
-/
mutual

inductive Json where
  | null
  | bool (b : Bool)
  | num (n : Int)
  | str (s : String)
  | arr (elems : JsonList)
  | obj (fields : JsonFields)

inductive JsonList where
  | nil
  | cons (head : Json) (tail : JsonList)

inductive JsonFields where
  | nil
  | cons (key : String) (value : Json) (tail : JsonFields)

end

/-- Characters `JSON.stringify` escapes inside string literals that can
occur in this model (quote, backslash, newline). -/
def escapeChar (c : Char) : String :=
  if c = '"' then "\\\""
  else if c = '\\' then "\\\\"
  else if c = '\n' then "\\n"
  else String.singleton c

/-- String-literal body as produced by `JSON.stringify`. -/
def escapeJsonString (s : String) : String :=
  String.join (s.toList.map escapeChar)

mutual

/-- JavaScript `JSON.stringify` on the modeled JSON values. -/
def jsonStringify : Json → String
  | .null => "null"
  | .bool true => "true"
  | .bool false => "false"
  | .num n => toString n
  | .str s => "\"" ++ escapeJsonString s ++ "\""
  | .arr es => "[" ++ jsonStringifyElems es ++ "]"
  | .obj fs => "\x7b" ++ jsonStringifyFields fs ++ "\x7d"

/-- Comma-separated serialization of array elements. -/
def jsonStringifyElems : JsonList → String
  | .nil => ""
  | .cons e .nil => jsonStringify e
  | .cons e rest => jsonStringify e ++ "," ++ jsonStringifyElems rest

/-- Comma-separated serialization of object fields. -/
def jsonStringifyFields : JsonFields → String
  | .nil => ""
  | .cons k v .nil => "\"" ++ escapeJsonString k ++ "\":" ++ jsonStringify v
  | .cons k v rest =>
      "\"" ++ escapeJsonString k ++ "\":" ++ jsonStringify v ++ ","
        ++ jsonStringifyFields rest

end

/-- Model of a Zod schema, the structured-validation variant of
`RegisteredFunctionSchema`: an abstract validator — `parse` returns the
validated value or throws, modeled as `Except.error` carrying
`err.message` — together with the JSON-schema document that the external
pure collaborator `zodToJsonSchema` derives from it, carried here as data
so that the conversion at registration time is a plain field read. -/
structure ZodSchema where
  parse : Json → Except String Json
  toJsonSchema : Json

/-- The union type `RegisteredFunctionSchema = ZodSchema | JSONSchema7Type`
from `chat.ts`.  The `instanceof ZodSchema` checks in the source become
matches on this tag. -/
inductive RegisteredFunctionSchema where
  | zod (z : ZodSchema)
  | json (doc : Json)

/-- JavaScript `Function` values as `chat.ts` uses them: the `name`
property (a string, empty for anonymous functions) and the body.  A call
receives one argument which may be `undefined` (`none`) and may itself
throw (`Except.error`). -/
structure JsFunction where
  name : String
  call : Option Json → Except String Json

/-- A registry entry, `RegisteredFunctionType` in `chat.ts`. -/
structure RegisteredFunctionType where
  name : String
  fullFunction : JsFunction
  schema : RegisteredFunctionSchema
  jsonSchema : Json

/-- JavaScript `Map.prototype.set` on a map represented as its entry list
in insertion order: replaces the value in place when the key is present,
otherwise appends a new entry. -/
def mapSet {α : Type} (m : List (String × α)) (k : String) (v : α) :
    List (String × α) :=
  if (m.map Prod.fst).contains k then
    m.map (fun p => if p.1 = k then (k, v) else p)
  else m ++ [(k, v)]

/-- JavaScript `Map.prototype.get` (`undefined` is `none`). -/
def mapGet {α : Type} (m : List (String × α)) (k : String) : Option α :=
  (m.find? (fun p => p.1 == k)).map Prod.snd

/-- JavaScript `Map.prototype.delete` (result value unused by the source). -/
def mapDelete {α : Type} (m : List (String × α)) (k : String) :
    List (String × α) :=
  m.filter (fun p => !(p.1 == k))

/-- The `SmolAI` class fields, with the initializers from `chat.ts`
(lines 16–23).  The `aisdk` collaborator held by the object is modeled as
the separate `Env` parameter of `chat`; `log` is not modeled. -/
structure SmolAI where
  systemMessage : String := "You are a helpful chatbot. You are helping a user with a task."
  model : String := "gpt-3.5-turbo-0613"
  registeredFunctions : List (String × RegisteredFunctionType) := []
  retryLimit : Nat := 5
  retryDelay : Nat := 200
  retryAttempts : Nat := 0

/-- Failures that `chat` surfaces as thrown JavaScript exceptions. -/
inductive SmolError where
  /-- TypeError raised by reading the named property of `undefined`
  (line 100–101: `choices[0].message` when there is no choice, and
  `function_call.name` when the message carries no function call — the
  latter is what the specification calls `ProtocolError`). -/
  | typeError (prop : String)
  /-- The `getFunction` throw (line 60): `smolChat error - function ...
  not found. Please report a bug.` — the specification's
  `UnknownFunctionError`, carrying the requested name. -/
  | notFound (name : String)
  /-- An exception thrown by the registered callable itself at
  line 134. -/
  | thrown (msg : String)

/-- Wire-schema derivation at registration time (lines 31–34):
`schema instanceof ZodSchema ? zodToJsonSchema(schema) : schema`. -/
def deriveWireSchema : RegisteredFunctionSchema → Json
  | .zod z => z.toJsonSchema
  | .json doc => doc

/-- The `addFunction` method (lines 30–41): stores a descriptor keyed by
`func.name`, with the wire schema derived once. -/
def SmolAI.addFunction (s : SmolAI) (func : JsFunction)
    (schema : RegisteredFunctionSchema) : SmolAI :=
  let entry : RegisteredFunctionType := ⟨func.name, func, schema, deriveWireSchema schema⟩
  { s with registeredFunctions := mapSet s.registeredFunctions func.name entry }

/-- The `deregisterFunction` method (lines 43–49); the argument is
`string | Function`. -/
def SmolAI.deregisterFunction (s : SmolAI) (func : String ⊕ JsFunction) :
    SmolAI :=
  match func with
  | .inl n => { s with registeredFunctions := mapDelete s.registeredFunctions n }
  | .inr f => { s with registeredFunctions := mapDelete s.registeredFunctions f.name }

/-- The `getFunction` method (lines 51–63): looks the name up and throws
when the entry is absent. -/
def SmolAI.getFunction (s : SmolAI) (func : String ⊕ JsFunction) :
    Except SmolError RegisteredFunctionType :=
  let fn := match func with
    | .inl n => mapGet s.registeredFunctions n
    | .inr f => mapGet s.registeredFunctions f.name
  match fn with
  | some fn => .ok fn
  | none => .error (.notFound (match func with | .inl n => n | .inr f => f.name))

/-- JavaScript `Object.keys` applied to a `Map` instance, as
`listFunctions` does at line 66.  A `Map` keeps its entries in the internal
`[[MapData]]` slot, not as own enumerable properties, so `Object.keys`
returns the empty array whatever the map contains (per ECMA-262; listing
the entries would have required the `Map.prototype.keys` method). -/
def objectKeysOfMap (m : List (String × RegisteredFunctionType)) :
    List String := []

/-- The `listFunctions` method (lines 65–69):
`Object.keys(this.registeredFunctions).map(fnName => this.getFunction(fnName))`,
with `getFunction`'s possible throw propagated. -/
def SmolAI.listFunctions (s : SmolAI) :
    Except SmolError (List RegisteredFunctionType) :=
  (objectKeysOfMap s.registeredFunctions).mapM
    (fun fnName => s.getFunction (.inl fnName))

/-- Message roles (`ChatCompletionRequestMessageRoleEnum`). -/
inductive Role where
  | system
  | user
  | assistant
  | function
deriving DecidableEq

/-- A conversation message (`ChatCompletionRequestMessage`): the pushes in
`chat` use `role`, optional `name`, and `content`. -/
structure ChatMessage where
  role : Role
  name : Option String := none
  content : String
deriving DecidableEq

/-- An element of `opts.messages`, whose type in the source is
`(string | ChatCompletionRequestMessage)[]`. -/
inductive MsgOrStr where
  | str (s : String)
  | msg (m : ChatMessage)
deriving DecidableEq

/-- The per-request coercion at lines 89–92: a bare string becomes a
user-role message, a message object passes through. -/
def coerceMsg : MsgOrStr → ChatMessage
  | .str s => ⟨.user, none, s⟩
  | .msg m => m

/-- The `function_call` object of a response message: selected name and
raw argument text. -/
structure FunctionCall where
  name : String
  arguments : String
deriving DecidableEq

/-- The message of a response choice; only its optional `function_call`
is read by `chat` (line 100). -/
structure ResponseMessage where
  function_call : Option FunctionCall := none
deriving DecidableEq

/-- One element of `chatCompletion.data.choices`. -/
structure Choice where
  message : ResponseMessage
deriving DecidableEq

/-- The provider response; the `.data` wrapper of the SDK is collapsed, so
`chatCompletion.data.choices` is the `choices` field here. -/
structure ChatCompletionResponse where
  choices : List Choice
deriving DecidableEq

/-- The request object passed to `aisdk.createChatCompletion`
(lines 85–97).  `function_call = none` models the field being `undefined`. -/
structure ChatRequest where
  model : String
  messages : List ChatMessage
  functions : List RegisteredFunctionType
  function_call : Option String := none

/-- The `opts.forceFunctionCall` optional field, of source type
`Function | string | null` where `null` disables all functions and an
absent field (`undefined`) leaves the provider free. -/
inductive ForceOpt where
  | absent
  | null
  | str (s : String)
  | func (f : JsFunction)

/-- External capabilities used by one `chat` call:
`aisdk i req` is the response of the `i`-th `createChatCompletion` round
trip (the provider may answer differently on each call), `jsonParse` is
the JavaScript builtin `JSON.parse` (`Except.error` is the thrown
SyntaxError's `err.message`), and `jitter i` is the `i`-th draw of
`Math.floor(Math.random() * 100)` (line 149). -/
structure Env where
  aisdk : Nat → ChatRequest → ChatCompletionResponse
  jsonParse : String → Except String Json
  jitter : Nat → Nat

/-- The mutable state threaded through the do-while loop of `chat`:
`messages` is the caller's `opts.messages` array (mutated in place by the
source, threaded explicitly here), `shouldRetry` and `lastCompletion` are
the loop-local variables of lines 76–77, `callIndex` counts provider round
trips already made, and `requests`/`delays` record, for observation, the
request of each `createChatCompletion` call and the delay of each
`setTimeout` backoff. -/
structure ChatState where
  messages : List MsgOrStr
  shouldRetry : Bool
  lastCompletion : Option ChatCompletionResponse
  callIndex : Nat
  requests : List ChatRequest
  delays : List Nat

/-- Loop state at the top of `chat`, before the first iteration. -/
def initState (messages : List MsgOrStr) : ChatState :=
  ⟨messages, false, none, 0, [], []⟩

/-- The request built at the top of each loop iteration (lines 80–97):
system message first, strings coerced to user messages, the function specs
emptied when `forceFunctionCall` is `null`, and the forced name resolved
from a `Function`'s `name` property when needed. -/
def requestOf (s : SmolAI) (force : ForceOpt)
    (functions : List RegisteredFunctionType) (st : ChatState) : ChatRequest :=
  { model := s.model
    messages := ⟨.system, none, s.systemMessage⟩ :: st.messages.map coerceMsg
    functions := match force with
      | .null => []
      | _ => functions
    function_call := match force with
      | .null => none
      | .absent => none
      | .str n => some n
      | .func f => some f.name }

/-- The try-block body of lines 106–112: `JSON.parse` on the raw argument
text, then `schema.parse` when the schema is a Zod schema, and the decoded
JSON passed through otherwise.  An `Except.error` is the `err` caught at
line 113, carrying `err.message`. -/
def parseAndValidate (jsonParse : String → Except String Json)
    (schema : RegisteredFunctionSchema) (raw : String) : Except String Json :=
  match jsonParse raw with
  | .error msg => .error msg
  | .ok json =>
    match schema with
    | .zod z => z.parse json
    | .json _ => .ok json

/-- Content of the corrective user message pushed at lines 115–121
(a template literal interpolating `err.message`). -/
def correctiveContent (errMessage : String) : String :=
  "Your function call involved invalid arguments.\n            " ++ errMessage
    ++ "\n            Please respond only with valid JSON under the provided schema.\n            "

/-- Outcome of one pass of the loop body: either the pass ran to the end
of the backoff (`done`) or a JavaScript exception aborted it (`fatal`),
each carrying the state reached. -/
inductive IterOutcome where
  | done (st : ChatState)
  | fatal (e : SmolError) (st : ChatState)

/-- State carried by an iteration outcome. -/
def stateOf : IterOutcome → ChatState
  | .done st => st
  | .fatal _ st => st

/-- Lines 133–151, the code after the try/catch: invoke the selected
function (note the source reaches this point whether or not the catch
block ran, so `args` may be `none`, i.e. `undefined`), append the
function-role result message, then wait the unconditional linear backoff
`this.retryAttempts * this.retryDelay + Math.floor(Math.random() * 100)`.
`iterIndex` selects this iteration's `Math.random` draw. -/
def runAndFinish (s : SmolAI) (env : Env)
    (selectedFunction : RegisteredFunctionType) (args : Option Json)
    (iterIndex : Nat) (st : ChatState) : IterOutcome :=
  match selectedFunction.fullFunction.call args with
  | .error msg => .fatal (.thrown msg) st
  | .ok results =>
    let delay := s.retryAttempts * s.retryDelay + env.jitter iterIndex
    .done { st with
      messages := st.messages
        ++ [.msg ⟨.function, some selectedFunction.name, jsonStringify results⟩]
      delays := st.delays ++ [delay] }

/-- One pass of the do-while body of `chat` (lines 80–151). -/
def chatIteration (s : SmolAI) (env : Env) (force : ForceOpt)
    (functions : List RegisteredFunctionType) (st : ChatState) : IterOutcome :=
  let req := requestOf s force functions st
  let resp := env.aisdk st.callIndex req
  let st1 : ChatState := { st with
    lastCompletion := some resp
    callIndex := st.callIndex + 1
    requests := st.requests ++ [req] }
  match resp.choices.head? with
  | none => .fatal (.typeError "message") st1
  | some choice =>
    match choice.message.function_call with
    | none => .fatal (.typeError "name") st1
    | some fc =>
      match s.getFunction (.inl fc.name) with
      | .error e => .fatal e st1
      | .ok selectedFunction =>
        match parseAndValidate env.jsonParse selectedFunction.schema fc.arguments with
        | .error msg =>
          let st2 : ChatState := { st1 with
            messages := st1.messages ++ [.msg ⟨.user, none, correctiveContent msg⟩]
            shouldRetry := true }
          runAndFinish s env selectedFunction none st.callIndex st2
        | .ok v =>
          runAndFinish s env selectedFunction (some v) st.callIndex st1

/-- Result of the loop: `finished` is the `return chatCompletion` at
line 155, `fatal` a thrown exception, and `fuelOut` means the loop was
still running after `fuel` iterations (the JavaScript loop is unbounded;
the fuel is a model artifact). -/
inductive ChatResult where
  | finished (st : ChatState)
  | fatal (e : SmolError) (st : ChatState)
  | fuelOut (st : ChatState)

/-- State carried by a loop result. -/
def resultState : ChatResult → ChatState
  | .finished st => st
  | .fatal _ st => st
  | .fuelOut st => st

/-- True exactly when the loop ran out of fuel, i.e. was still running. -/
def ranOut : ChatResult → Bool
  | .fuelOut _ => true
  | _ => false

/-- The do-while loop of lines 80–152.  The guard is
`shouldRetry && this.retryAttempts < this.retryLimit`; `retryAttempts` is
never written inside the loop (nor anywhere else in the class), so it is
read unchanged from `s` on every test. -/
def chatLoop (s : SmolAI) (env : Env) (force : ForceOpt)
    (functions : List RegisteredFunctionType) : Nat → ChatState → ChatResult
  | 0, st => .fuelOut st
  | fuel + 1, st =>
    match chatIteration s env force functions st with
    | .fatal e st' => .fatal e st'
    | .done st' =>
      if st'.shouldRetry ∧ s.retryAttempts < s.retryLimit then
        chatLoop s env force functions fuel st'
      else
        .finished st'

/-- The `chat` method (lines 71–156): compute the function specs once via
`listFunctions` (propagating its possible throw), then run the do-while
loop, starting from the caller's message array with `shouldRetry = false`
and `chatCompletion = null`. -/
def SmolAI.chat (s : SmolAI) (env : Env) (messages : List MsgOrStr)
    (force : ForceOpt) (fuel : Nat) : ChatResult :=
  match s.listFunctions with
  | .error e => .fatal e (initState messages)
  | .ok functions => chatLoop s env force functions fuel (initState messages)

/-!
Concrete scenarios used by the claim theorems below: small registries,
providers and runtime environments instantiating the external
collaborators.  Each `jsonParse` field agrees with the JavaScript
`JSON.parse` on every argument text the scenario's provider produces.
-/

/-- Callable for the C2 scenario; its result string can appear in the
conversation only if the callable was actually invoked. -/
def fInvoked : JsFunction := ⟨"f", fun _ => Except.ok (Json.str "INVOKED")⟩

/-- Zod schema rejecting every decoded value, with the message Zod
produces for `null` against an object schema. -/
def rejectAllSchema : ZodSchema :=
  ⟨fun _ => Except.error "Expected object, received null", Json.null⟩

/-- Registry for C2: `f` with an always-rejecting structured schema. -/
def sC2 : SmolAI := SmolAI.addFunction {} fInvoked (.zod rejectAllSchema)

/-- Environment for C2: the provider always selects `f` with argument
text `null`, which `JSON.parse` accepts but the Zod schema rejects. -/
def envC2 : Env :=
  ⟨fun _ _ => ⟨[⟨⟨some ⟨"f", "null"⟩⟩⟩]⟩,
   fun raw => if raw = "null" then Except.ok Json.null
     else Except.error "Unexpected token",
   fun _ => 0⟩

/-- Callable for the C8 scenario, returning the number `7`. -/
def hSeven : JsFunction := ⟨"h", fun _ => Except.ok (Json.num 7)⟩

/-- Registry for C8: `h` with a plain-document schema. -/
def sC8 : SmolAI := SmolAI.addFunction {} hSeven (.json (Json.obj JsonFields.nil))

/-- Environment for C8: the provider always selects `h` with the
unparseable argument text `oops` (`JSON.parse` throws on it). -/
def envC8 : Env :=
  ⟨fun _ _ => ⟨[⟨⟨some ⟨"h", "oops"⟩⟩⟩]⟩,
   fun raw => if raw = "oops"
     then Except.error "Unexpected token o in JSON at position 0"
     else Except.ok Json.null,
   fun _ => 0⟩

/-- Callable for the C3 scenario; always returns normally. -/
def gFun : JsFunction := ⟨"g", fun _ => Except.ok Json.null⟩

/-- Registry for C3: `g` with a plain-document schema. -/
def sC3 : SmolAI := SmolAI.addFunction {} gFun (.json (Json.obj JsonFields.nil))

/-- Response for C3: the provider always selects `g` with the unparseable
argument text `bad`. -/
def respC3 : ChatCompletionResponse := ⟨[⟨⟨some ⟨"g", "bad"⟩⟩⟩]⟩

/-- Environment for C3.  Its `jsonParse` is applied only to the single
argument text `bad`, on which `JSON.parse` throws. -/
def envC3 : Env :=
  ⟨fun _ _ => respC3,
   fun _ => Except.error "Unexpected token b in JSON at position 0",
   fun _ => 0⟩

/-- Response for C5: the provider selects the unregistered name
`doThing`. -/
def respC5 : ChatCompletionResponse := ⟨[⟨⟨some ⟨"doThing", "\x7b\x7d"⟩⟩⟩]⟩

/-- Environment for C5. -/
def envC5 : Env :=
  ⟨fun _ _ => respC5, fun _ => Except.ok (Json.obj JsonFields.nil), fun _ => 0⟩

/-- Response for C6: the first choice's message carries no
`function_call`. -/
def respC6 : ChatCompletionResponse := ⟨[⟨⟨none⟩⟩]⟩

/-- Environment for C6. -/
def envC6 : Env := ⟨fun _ _ => respC6, fun _ => Except.ok Json.null, fun _ => 0⟩

/-- Callable for the C7 witness scenario. -/
def wFun7 : JsFunction := ⟨"w", fun _ => Except.ok Json.null⟩

/-- Registry for the C7 witness. -/
def sC7 : SmolAI := SmolAI.addFunction {} wFun7 (.json Json.null)

/-- Environment for the C7 witness: valid arguments, jitter draw 42. -/
def envC7 : Env :=
  ⟨fun _ _ => ⟨[⟨⟨some ⟨"w", "null"⟩⟩⟩]⟩,
   fun raw => if raw = "null" then Except.ok Json.null
     else Except.error "Unexpected token",
   fun _ => 42⟩

/-- One registry operation: a call to `addFunction` or to
`deregisterFunction`. -/
inductive RegOp where
  | add (func : JsFunction) (schema : RegisteredFunctionSchema)
  | remove (key : String ⊕ JsFunction)

/-- Apply one registry operation. -/
def applyOp (s : SmolAI) : RegOp → SmolAI
  | .add f sch => s.addFunction f sch
  | .remove k => s.deregisterFunction k

/-- Apply a sequence of registry operations in order. -/
def applyOps (s : SmolAI) (ops : List RegOp) : SmolAI :=
  ops.foldl applyOp s

/-- Registry invariant actually maintained by `addFunction` and
`deregisterFunction`: every stored descriptor's `name` equals its map key
(the registered callable's `name` property) and its `jsonSchema` is the
wire schema derived from its `schema` at registration. -/
def registryWellFormed (s : SmolAI) : Prop :=
  ∀ p ∈ s.registeredFunctions,
    p.2.name = p.1 ∧ p.2.jsonSchema = deriveWireSchema p.2.schema

/-- Named callable for the C9 witness. -/
def wReg : JsFunction := ⟨"w9", fun _ => Except.ok Json.null⟩

/-- Descriptor stored for `wReg` under a plain-document schema. -/
def wEntry : RegisteredFunctionType := ⟨"w9", wReg, .json (Json.num 3), Json.num 3⟩

/-- An anonymous JavaScript function: its `name` property is the empty
string. -/
def anonFun : JsFunction := ⟨"", fun _ => Except.ok Json.null⟩

/-!
Helper lemmas shared by the claim theorems.
-/

/-- Whatever the registry holds, `listFunctions` returns `ok []`, because
`Object.keys` of a `Map` is empty. -/
lemma listFunctions_always_empty (s : SmolAI) :
    s.listFunctions = Except.ok [] := rfl

/-- Unfolding of one `chatLoop` step with fuel left. -/
lemma chatLoop_succ (s : SmolAI) (env : Env) (force : ForceOpt)
    (fns : List RegisteredFunctionType) (fuel : Nat) (st : ChatState) :
    chatLoop s env force fns (fuel + 1) st =
      match chatIteration s env force fns st with
      | .fatal e st' => .fatal e st'
      | .done st' =>
        if st'.shouldRetry ∧ s.retryAttempts < s.retryLimit then
          chatLoop s env force fns fuel st'
        else .finished st' := rfl

/-- In the C3 scenario every iteration completes with `shouldRetry`
already set to `true`: the parse fails, the corrective message is pushed,
the callable still runs (with `undefined`), the result message is pushed,
and the backoff delay is `0 * 200 + 0`. -/
lemma c3_iteration (st : ChatState) :
    chatIteration sC3 envC3 .absent [] st = .done
      { messages := st.messages
          ++ [.msg ⟨.user, none,
                correctiveContent "Unexpected token b in JSON at position 0"⟩]
          ++ [.msg ⟨.function, some "g", "null"⟩]
        shouldRetry := true
        lastCompletion := some respC3
        callIndex := st.callIndex + 1
        requests := st.requests ++ [requestOf sC3 .absent [] st]
        delays := st.delays ++ [0] } := rfl

/-- In the C3 scenario the loop keeps running whatever the fuel: the guard
`shouldRetry && retryAttempts < retryLimit` stays true because
`retryAttempts` is never incremented (it stays `0 < 5`) and `shouldRetry`
is never reset. -/
lemma c3_loop (fuel : Nat) :
    ∀ st : ChatState, ranOut (chatLoop sC3 envC3 .absent [] fuel st) = true := by
  induction fuel with
  | zero => intro st; rfl
  | succ n ih =>
    intro st
    rw [chatLoop_succ, c3_iteration st]
    dsimp only
    rw [if_pos (⟨rfl, by decide⟩ :
      (true = true) ∧ sC3.retryAttempts < sC3.retryLimit)]
    exact ih _

/-- Registration preserves the registry invariant. -/
lemma wf_addFunction (s : SmolAI) (f : JsFunction)
    (sch : RegisteredFunctionSchema) (h : registryWellFormed s) :
    registryWellFormed (s.addFunction f sch) := by
  intro p hp
  simp only [SmolAI.addFunction, mapSet] at hp
  split at hp
  · obtain ⟨q, hq, hpq⟩ := List.mem_map.mp hp
    by_cases hqk : q.1 = f.name
    · rw [if_pos hqk] at hpq
      subst hpq
      exact ⟨rfl, rfl⟩
    · rw [if_neg hqk] at hpq
      subst hpq
      exact h q hq
  · rcases List.mem_append.mp hp with hmem | hmem
    · exact h p hmem
    · rcases List.mem_singleton.mp hmem with rfl
      exact ⟨rfl, rfl⟩

/-- Deregistration preserves the registry invariant. -/
lemma wf_deregisterFunction (s : SmolAI) (k : String ⊕ JsFunction)
    (h : registryWellFormed s) :
    registryWellFormed (s.deregisterFunction k) := by
  intro p hp
  cases k with
  | inl n =>
    simp only [SmolAI.deregisterFunction, mapDelete] at hp
    exact h p (List.mem_filter.mp hp).1
  | inr f =>
    simp only [SmolAI.deregisterFunction, mapDelete] at hp
    exact h p (List.mem_filter.mp hp).1

/-- Any sequence of registry operations preserves the invariant. -/
lemma wf_applyOps (ops : List RegOp) :
    ∀ s : SmolAI, registryWellFormed s → registryWellFormed (applyOps s ops) := by
  induction ops with
  | nil => intro s h; exact h
  | cons op rest ih =>
    intro s h
    cases op with
    | add f sch => exact ih _ (wf_addFunction s f sch h)
    | remove k => exact ih _ (wf_deregisterFunction s k h)

/-- Every loop-body pass only appends to the caller's message array. -/
lemma iter_messages_extend (s : SmolAI) (env : Env) (force : ForceOpt)
    (fns : List RegisteredFunctionType) (st : ChatState) :
    ∃ tail, (stateOf (chatIteration s env force fns st)).messages =
      st.messages ++ tail := by
  simp only [chatIteration, runAndFinish]
  repeat' split
  all_goals simp only [stateOf]
  all_goals first
    | exact ⟨_, rfl⟩
    | exact ⟨[], (List.append_nil _).symm⟩
    | exact ⟨_, List.append_assoc _ _ _⟩

/-- Every loop-body pass performs exactly one provider round trip, whose
request is built by `requestOf` from the current state. -/
lemma iter_requests_extend (s : SmolAI) (env : Env) (force : ForceOpt)
    (fns : List RegisteredFunctionType) (st : ChatState) :
    (stateOf (chatIteration s env force fns st)).requests =
      st.requests ++ [requestOf s force fns st] := by
  simp only [chatIteration, runAndFinish]
  repeat' split
  all_goals rfl

/-- However the loop ends, the caller's message array has only grown. -/
lemma loop_messages_extend (s : SmolAI) (env : Env) (force : ForceOpt)
    (fns : List RegisteredFunctionType) :
    ∀ (fuel : Nat) (st : ChatState), ∃ tail,
      (resultState (chatLoop s env force fns fuel st)).messages =
        st.messages ++ tail := by
  intro fuel
  induction fuel with
  | zero => intro st; exact ⟨[], by simp [chatLoop, resultState]⟩
  | succ n ih =>
    intro st
    have h1 := iter_messages_extend s env force fns st
    rw [chatLoop_succ]
    cases hit : chatIteration s env force fns st with
    | fatal e st' =>
      rw [hit] at h1
      simp only [stateOf] at h1
      exact h1
    | done st' =>
      rw [hit] at h1
      simp only [stateOf] at h1
      dsimp only
      by_cases hc : st'.shouldRetry = true ∧ s.retryAttempts < s.retryLimit
      · rw [if_pos hc]
        obtain ⟨t1, ht1⟩ := h1
        obtain ⟨t2, ht2⟩ := ih st'
        exact ⟨t1 ++ t2, by rw [ht2, ht1, List.append_assoc]⟩
      · rw [if_neg hc]
        exact h1

/-!
Claim theorems.
-/

/-- Claim C1: listing the registered functions was claimed to return
exactly the stored descriptors, the sequence sent as function specs when
the policy is not disabled.  The code falsifies the first part:
`listFunctions` applies `Object.keys` to a JavaScript `Map`, so it returns
the empty sequence for every registry state — including a registry that
demonstrably stores one descriptor under `getWeather` — and the request
built when the policy is not disabled carries whatever `listFunctions`
returned. -/
theorem C1_listFunctions_ignores_registry :
    (∀ s : SmolAI, s.listFunctions = Except.ok [])
    ∧ ((SmolAI.addFunction {} ⟨"getWeather", fun _ => Except.ok Json.null⟩
          (RegisteredFunctionSchema.json Json.null)).registeredFunctions.map
        Prod.fst = ["getWeather"])
    ∧ (∀ (s : SmolAI) (fns : List RegisteredFunctionType) (st : ChatState),
        (requestOf s .absent fns st).functions = fns) :=
  ⟨fun _ => rfl, rfl, fun _ _ _ => rfl⟩

/-- Claim C2: when a structured (Zod) schema rejects the decoded
arguments, the descriptor's callable was claimed not to run in that
iteration.  The code falsifies this: the catch block sets `shouldRetry`
but never skips the rest of the body, so after the corrective message the
callable still runs with `args` left `undefined`.  In the C2 scenario the
Zod schema rejects the decoded `null`, yet the iteration's conversation
delta contains both the corrective user message and a function-role
message holding the callable's serialized result — which can only exist
because the callable was invoked. -/
theorem C2_callable_invoked_despite_validation_failure :
    (stateOf (chatIteration sC2 envC2 .absent [] (initState []))).messages =
      [ .msg ⟨.user, none, correctiveContent "Expected object, received null"⟩,
        .msg ⟨.function, some "f", "\"INVOKED\""⟩ ] := rfl

/-- Claim C3: against a provider that always sends invalid argument text,
the loop was claimed to stop after at most `retryLimit` retries and return
the last response.  The code falsifies this: `retryAttempts` is never
incremented and `shouldRetry` is never reset, so the guard
`shouldRetry && retryAttempts < retryLimit` stays true and the loop never
terminates — for every fuel bound, `chat` is still looping, having
neither returned nor thrown. -/
theorem C3_retry_loop_never_terminates :
    ∀ fuel : Nat, ranOut (SmolAI.chat sC3 envC3 [] .absent fuel) = true :=
  fun fuel => c3_loop fuel (initState [])

/-- Claim C4: for a plain-document (non-Zod) schema, any successfully
decoded argument value is accepted with no structural check.  Confirmed:
the validation step for a plain-document schema is exactly `JSON.parse` —
its result does not depend on the schema document at all, so a decoded
value is accepted even when it would violate the document. -/
theorem C4_plain_schema_accepts_unconditionally :
    ∀ (p : String → Except String Json) (doc : Json) (raw : String),
      parseAndValidate p (.json doc) raw = p raw := by
  intro p doc raw
  unfold parseAndValidate
  rcases hp : p raw with m | j
  · rfl
  · rfl

/-- Claim C5: when the provider selects a name absent from the registry,
`chat` was claimed to throw the unknown-function error on the first
iteration and abort: zero retries, no corrective message, error
propagated.  Confirmed: under any provider whose responses always select
an unregistered name `n`, `chat` ends fatally with `notFound n` for every
fuel bound, after exactly one provider call, with the caller's messages
untouched and no backoff performed. -/
theorem C5_unknown_function_fatal_first_iteration (s : SmolAI) (env : Env)
    (messages : List MsgOrStr) (force : ForceOpt) (n : String)
    (hn : mapGet s.registeredFunctions n = none)
    (hresp : ∀ (i : Nat) (req : ChatRequest), ∃ ch : Choice,
      (env.aisdk i req).choices.head? = some ch ∧
      ∃ fc : FunctionCall, ch.message.function_call = some fc ∧ fc.name = n) :
    ∀ fuel : Nat, ∃ st' : ChatState,
      SmolAI.chat s env messages force (fuel + 1) =
        .fatal (.notFound n) st' ∧
      st'.messages = messages ∧ st'.callIndex = 1 ∧ st'.delays = [] := by
  intro fuel
  obtain ⟨ch, hch, fc, hfc, hname⟩ :=
    hresp (initState messages).callIndex (requestOf s force [] (initState messages))
  have hstep : chatLoop s env force [] (fuel + 1) (initState messages) =
      .fatal (.notFound n)
        { initState messages with
          lastCompletion := some (env.aisdk (initState messages).callIndex
            (requestOf s force [] (initState messages)))
          callIndex := 1
          requests := [requestOf s force [] (initState messages)] } := by
    rw [chatLoop_succ]
    simp only [chatIteration, SmolAI.getFunction]
    rw [hch]
    dsimp only
    rw [hfc]
    dsimp only
    rw [hname, hn]
    rfl
  have hchat : SmolAI.chat s env messages force (fuel + 1) =
      chatLoop s env force [] (fuel + 1) (initState messages) := rfl
  rw [hchat, hstep]
  exact ⟨_, rfl, rfl, rfl, rfl⟩

/-- Witness for C5: the empty registry against a provider that always
selects `doThing`, at fuel 1. -/
theorem C5_unknown_function_witness : ∃ st' : ChatState,
    SmolAI.chat {} envC5 [] .absent (0 + 1) = .fatal (.notFound "doThing") st' ∧
    st'.messages = [] ∧ st'.callIndex = 1 ∧ st'.delays = [] :=
  C5_unknown_function_fatal_first_iteration {} envC5 [] .absent "doThing" rfl
    (fun _ _ => ⟨⟨⟨some ⟨"doThing", "\x7b\x7d"⟩⟩⟩, rfl, ⟨"doThing", "\x7b\x7d"⟩, rfl, rfl⟩) 0

/-- Claim C6: when the first response choice carries no function-call
selection, `chat` fails with a distinct fatal error that propagates and
aborts the loop.  Confirmed: the code throws the TypeError raised by
reading `.name` of the `undefined` `function_call` (the error the
specification names `ProtocolError`, distinct by construction from the
unknown-function error); for every fuel bound `chat` ends fatally with it
after exactly one provider call, the conversation untouched. -/
theorem C6_missing_function_call_fatal (s : SmolAI) (env : Env)
    (messages : List MsgOrStr) (force : ForceOpt)
    (hresp : ∀ (i : Nat) (req : ChatRequest), ∃ ch : Choice,
      (env.aisdk i req).choices.head? = some ch ∧
      ch.message.function_call = none) :
    ∀ fuel : Nat, ∃ st' : ChatState,
      SmolAI.chat s env messages force (fuel + 1) =
        .fatal (.typeError "name") st' ∧
      st'.messages = messages ∧ st'.callIndex = 1 ∧ st'.delays = [] := by
  intro fuel
  obtain ⟨ch, hch, hfc⟩ := hresp (initState messages).callIndex
    (requestOf s force [] (initState messages))
  have hstep : chatLoop s env force [] (fuel + 1) (initState messages) =
      .fatal (.typeError "name")
        { initState messages with
          lastCompletion := some (env.aisdk (initState messages).callIndex
            (requestOf s force [] (initState messages)))
          callIndex := 1
          requests := [requestOf s force [] (initState messages)] } := by
    rw [chatLoop_succ]
    simp only [chatIteration]
    rw [hch]
    dsimp only
    rw [hfc]
    rfl
  have hchat : SmolAI.chat s env messages force (fuel + 1) =
      chatLoop s env force [] (fuel + 1) (initState messages) := rfl
  rw [hchat, hstep]
  exact ⟨_, rfl, rfl, rfl, rfl⟩

/-- Witness for C6: a provider whose response message has no
`function_call`, at fuel 1. -/
theorem C6_missing_function_call_witness : ∃ st' : ChatState,
    SmolAI.chat {} envC6 [.str "hi"] .absent (0 + 1) =
      .fatal (.typeError "name") st' ∧
    st'.messages = [.str "hi"] ∧ st'.callIndex = 1 ∧ st'.delays = [] :=
  C6_missing_function_call_fatal {} envC6 [.str "hi"] .absent
    (fun _ _ => ⟨⟨⟨none⟩⟩, rfl, rfl⟩) 0

/-- Claim C7: every loop iteration that completes performs exactly one
backoff wait — unconditionally, on the retry path and on the success path
alike — and its delay `d` satisfies `0 ≤ d` and
`d < retryAttempts * retryDelay + 100`, where 100 is the jitter bound of
`Math.floor(Math.random() * 100)`.  Confirmed, assuming only that every
jitter draw is below its bound. -/
theorem C7_backoff_delay_bounds (s : SmolAI) (env : Env) (force : ForceOpt)
    (functions : List RegisteredFunctionType) (st st' : ChatState)
    (hj : ∀ i : Nat, env.jitter i < 100)
    (hdone : chatIteration s env force functions st = .done st') :
    ∃ d : Nat, st'.delays = st.delays ++ [d] ∧ 0 ≤ d ∧
      d < s.retryAttempts * s.retryDelay + 100 := by
  simp only [chatIteration, runAndFinish] at hdone
  split at hdone
  · exact absurd hdone (by simp)
  · split at hdone
    · exact absurd hdone (by simp)
    · split at hdone
      · exact absurd hdone (by simp)
      · split at hdone
        · split at hdone
          · exact absurd hdone (by simp)
          · injection hdone with h
            subst h
            exact ⟨_, rfl, Nat.zero_le _, Nat.add_lt_add_left (hj _) _⟩
        · split at hdone
          · exact absurd hdone (by simp)
          · injection hdone with h
            subst h
            exact ⟨_, rfl, Nat.zero_le _, Nat.add_lt_add_left (hj _) _⟩

/-- Witness for C7: a successful iteration with jitter draw 42; the delay
recorded is within the claimed bounds. -/
theorem C7_backoff_delay_witness : ∃ d : Nat,
    (stateOf (chatIteration sC7 envC7 .absent [] (initState []))).delays =
      (initState []).delays ++ [d] ∧
    0 ≤ d ∧ d < sC7.retryAttempts * sC7.retryDelay + 100 :=
  C7_backoff_delay_bounds sC7 envC7 .absent [] (initState []) _
    (fun _ => (by decide : (42 : Nat) < 100)) rfl

/-- Claim C8: an iteration whose function invocation succeeds was claimed
to grow the conversation by exactly one function-role message.  The code
falsifies this: because the catch block does not skip execution, an
iteration whose argument text fails to parse still invokes the callable
(successfully, here returning `7`) and grows the conversation by two
messages — the corrective user message and the function-role result
message. -/
theorem C8_success_iteration_appends_two_messages :
    (stateOf (chatIteration sC8 envC8 .absent [] (initState []))).messages.length = 2 ∧
    (stateOf (chatIteration sC8 envC8 .absent [] (initState []))).messages =
      [ .msg ⟨.user, none,
          correctiveContent "Unexpected token o in JSON at position 0"⟩,
        .msg ⟨.function, some "h", "7"⟩ ] := ⟨rfl, rfl⟩

/-- Claim C9, counterexample: the claim says every stored descriptor has a
non-empty name, but registering an anonymous function (whose `name`
property is the empty string) stores a descriptor named `""`. -/
theorem C9_descriptor_name_can_be_empty :
    ((SmolAI.addFunction {} anonFun (.json Json.null)).registeredFunctions.map
      (fun p => p.2.name)) = [""] := rfl

/-- Claim C9 as amended: for every sequence of register/deregister
operations from the empty registry, every stored descriptor's name equals
its key — the registered callable's `name` property, which may be empty —
and its wire schema is derived from its schema at registration
(pass-through for a plain document, converted for the structured
variant). -/
theorem C9_registry_invariant_amended (ops : List RegOp)
    (p : String × RegisteredFunctionType)
    (hp : p ∈ (applyOps {} ops).registeredFunctions) :
    p.2.name = p.1 ∧ p.2.jsonSchema = deriveWireSchema p.2.schema :=
  wf_applyOps ops {} (fun _ hq => absurd hq (List.not_mem_nil _)) p hp

/-- Witness for the amended C9: a single registration of `wReg`. -/
theorem C9_registry_invariant_witness :
    wEntry.name = "w9" ∧ wEntry.jsonSchema = deriveWireSchema wEntry.schema :=
  C9_registry_invariant_amended [.add wReg (.json (Json.num 3))] ("w9", wEntry)
    (List.mem_singleton.mpr rfl)

/-- Claim C10: `chat` works on the caller's own message array — modeled
here by threading one `messages` list through the loop.  Confirmed in four
parts: every loop pass only appends to the list; every pass performs
exactly one provider call whose request is built by `requestOf` from the
current (already grown) list; that request's message list is the system
message followed by the current caller list with strings coerced — so
messages appended by earlier iterations are included in later requests;
and however the loop ends, the final list is the caller's original list
plus the appended tail. -/
theorem C10_messages_threaded_and_sent (s : SmolAI) (env : Env)
    (force : ForceOpt) (fns : List RegisteredFunctionType) :
    (∀ st : ChatState, ∃ tail,
      (stateOf (chatIteration s env force fns st)).messages = st.messages ++ tail) ∧
    (∀ st : ChatState,
      (stateOf (chatIteration s env force fns st)).requests =
        st.requests ++ [requestOf s force fns st]) ∧
    (∀ st : ChatState, (requestOf s force fns st).messages =
      ⟨.system, none, s.systemMessage⟩ :: st.messages.map coerceMsg) ∧
    (∀ (fuel : Nat) (st : ChatState), ∃ tail,
      (resultState (chatLoop s env force fns fuel st)).messages =
        st.messages ++ tail) :=
  ⟨iter_messages_extend s env force fns,
   iter_requests_extend s env force fns,
   fun _ => rfl,
   loop_messages_extend s env force fns⟩
